import Mathlib

/-
Verification of the Perceiver IO model implementation (src/perceiver/model.py)
against its natural-language specification.

The development shallowly embeds the model code:
* tensor shapes are explicit `Nat` triples, and shape-changing operations are
  embedded as `Except`-valued shape functions translated module by module;
* the text-masking algorithm is embedded elementwise over tensors represented
  as a shape plus an index function, with the random draws of `torch.rand_like`
  and `torch.randint` passed in explicitly (floats abstracted to an ordered
  field, instantiated at ℚ for evaluation and at ℝ for probability statements);
* Python exceptions (`ValueError`, `TypeError`, `AttributeError`) are an
  explicit error type.

The class `perceiver.utils.Sequential` is not part of the sources under
verification; wherever its behaviour matters it is modelled from the spec
(apply the wrapped sub-modules in order, feeding each output to the next).
-/

namespace Perceiver

/-- Python-level errors that the modelled code can raise.  A `valueError`
records the observed and the expected latent shape of the decoder's
shape check (model.py line 233). -/
inductive PyErr where
  | valueError (observed expected : Nat × Nat)
  | typeError (msg : String)
  | attributeError (msg : String)
deriving DecidableEq

/-- Rendering of a `PyErr` to the message text Python would produce.  For the
decoder's shape mismatch this is the f-string of model.py line 233, which
names both the observed and the expected shape. -/
def PyErr.message : PyErr → String
  | .valueError o e =>
      "Latent shape " ++ toString o ++ " different from required shape " ++ toString e
  | .typeError m => m
  | .attributeError m => m

/-- Shape of a rank-3 tensor: (batch, sequence, channels). -/
abbrev Shape3 := Nat × Nat × Nat

/-- Shape semantics of `torch.nn.LayerNorm(c)`: elementwise over the last
dimension, which must equal `c`. -/
def layerNormShape (c : Nat) (s : Shape3) : Except PyErr Shape3 :=
  if s.2.2 = c then .ok s
  else .error (.typeError "LayerNorm: normalized shape mismatch")

/-- Shape semantics of `torch.nn.Linear(cin, cout)`. -/
def linearShape (cin cout : Nat) (s : Shape3) : Except PyErr Shape3 :=
  if s.2.2 = cin then .ok (s.1, s.2.1, cout)
  else .error (.typeError "Linear: in_features mismatch")

/-- GELU is elementwise and keeps the shape. -/
def geluShape (s : Shape3) : Except PyErr Shape3 := .ok s

/-- Shape semantics of `torch.nn.MultiheadAttention` with `batch_first=True`,
`embed_dim = num_q_channels` and `kdim = vdim = num_kv_channels`, as wrapped by
`MultiHeadAttention.forward` (model.py lines 59-74): the attended output has
the query's batch and sequence dimensions and `embed_dim` channels.  The
divisibility of `embed_dim` by the head count is checked at construction time
and does not influence forward shapes. -/
def multiHeadAttentionShape (embedDim kdim : Nat) (q kv : Shape3) : Except PyErr Shape3 :=
  if q.2.2 = embedDim ∧ kv.2.2 = kdim ∧ q.1 = kv.1 then .ok (q.1, q.2.1, embedDim)
  else .error (.typeError "MultiheadAttention: shape mismatch")

/-- Dropout keeps the shape. -/
def dropoutShape (s : Shape3) : Except PyErr Shape3 := .ok s

/-- Elementwise addition of a residual branch: both operands must have the
same shape (broadcasting never occurs in the modelled call sites). -/
def addShape (a b : Shape3) : Except PyErr Shape3 :=
  if a = b then .ok a
  else .error (.typeError "add: shape mismatch")

/-- Shape semantics of `Residual.forward` (model.py lines 54-56):
`dropout(module(x)) + x`, where `x` is the first positional argument. -/
def residualShape (moduleShape : Shape3 → Except PyErr Shape3) (x : Shape3) :
    Except PyErr Shape3 := do
  let y ← moduleShape x
  let y ← dropoutShape y
  addShape y x

/-- Shape semantics of `mlp` (model.py lines 20-26):
LayerNorm c, Linear c c, GELU, Linear c c, applied in order. -/
def mlpShape (c : Nat) (s : Shape3) : Except PyErr Shape3 := do
  let s ← layerNormShape c s
  let s ← linearShape c c s
  let s ← geluShape s
  linearShape c c s

/-- Shape semantics of `CrossAttention.forward` (model.py lines 96-99):
normalize the two streams independently, then attend. -/
def crossAttentionShape (cq ckv : Nat) (q kv : Shape3) : Except PyErr Shape3 := do
  let qn ← layerNormShape cq q
  let kvn ← layerNormShape ckv kv
  multiHeadAttentionShape cq ckv qn kvn

/-- Shape semantics of `cross_attention_layer` (model.py lines 29-33):
Residual(CrossAttention) then Residual(mlp), applied in order (the ordering is
the `Sequential` wrapper, modelled from the spec). -/
def crossAttentionLayerShape (cq ckv : Nat) (q kv : Shape3) : Except PyErr Shape3 := do
  let r1 ← residualShape (fun s => crossAttentionShape cq ckv s kv) q
  residualShape (mlpShape cq) r1

/-- Shape semantics of `SelfAttention.forward` (model.py lines 114-116). -/
def selfAttentionShape (c : Nat) (x : Shape3) : Except PyErr Shape3 := do
  let xn ← layerNormShape c x
  multiHeadAttentionShape c c xn xn

/-- Shape semantics of `self_attention_layer` (model.py lines 36-40). -/
def selfAttentionLayerShape (c : Nat) (x : Shape3) : Except PyErr Shape3 := do
  let r1 ← residualShape (selfAttentionShape c) x
  residualShape (mlpShape c) r1

/-- Shape semantics of `self_attention_block` (model.py lines 43-44):
`n` stacked self-attention layers applied in order. -/
def selfAttentionBlockShape (n c : Nat) (x : Shape3) : Except PyErr Shape3 :=
  match n with
  | 0 => .ok x
  | k + 1 => do
    let y ← selfAttentionLayerShape c x
    selfAttentionBlockShape k c y

/-- Construction-time configuration of `PerceiverEncoder` (model.py
lines 119-170) as far as forward shapes are concerned. -/
structure EncoderShapeCfg where
  num_input_channels : Nat
  latentN : Nat
  latentC : Nat
  num_layers : Nat
  num_self_attention_layers_per_block : Nat

/-- Shape semantics of one compound perceiver layer as built by
`create_perceiver_layer` (model.py lines 150-160): a cross-attention layer
followed by a self-attention block. -/
def perceiverLayerShape (cfg : EncoderShapeCfg) (lat x : Shape3) : Except PyErr Shape3 := do
  let l1 ← crossAttentionLayerShape cfg.latentC cfg.num_input_channels lat x
  selfAttentionBlockShape cfg.num_self_attention_layers_per_block cfg.latentC l1

/-- The loop of model.py lines 186-187 at shape level: apply the shared
compound layer `n` times to the running latent shape. -/
def encoderIterShape (cfg : EncoderShapeCfg) (x : Shape3) : Nat → Shape3 → Except PyErr Shape3
  | 0, lat => .ok lat
  | k + 1, lat => do
    let lat2 ← perceiverLayerShape cfg lat x
    encoderIterShape cfg x k lat2

/-- Shape semantics of `PerceiverEncoder.forward` (model.py lines 176-189):
the input adapter produces `(b, m, num_input_channels)`, the latent parameter
is broadcast to `(b, latentN, latentC)`, the primary compound layer is applied
once and the shared compound layer `num_layers - 1` further times. -/
def encoderForwardShape (cfg : EncoderShapeCfg) (b m : Nat) : Except PyErr Shape3 := do
  let x : Shape3 := (b, m, cfg.num_input_channels)
  let lat : Shape3 := (b, cfg.latentN, cfg.latentC)
  let lat1 ← perceiverLayerShape cfg lat x
  encoderIterShape cfg x (cfg.num_layers - 1) lat1

lemma ok_bind {α β : Type} (a : α) (f : α → Except PyErr β) :
    (Except.ok a >>= f : Except PyErr β) = f a := rfl

lemma mlpShape_fixed (c b n : Nat) : mlpShape c (b, n, c) = .ok (b, n, c) := by
  simp [mlpShape, layerNormShape, linearShape, geluShape, ok_bind]

lemma crossAttentionLayerShape_fixed (cq ckv b n bm mm : Nat) (h : bm = b) :
    crossAttentionLayerShape cq ckv (b, n, cq) (bm, mm, ckv) = .ok (b, n, cq) := by
  subst h
  simp [crossAttentionLayerShape, residualShape, crossAttentionShape, layerNormShape,
    multiHeadAttentionShape, dropoutShape, addShape, mlpShape_fixed, Except.bind, ok_bind]

lemma selfAttentionLayerShape_fixed (c b n : Nat) :
    selfAttentionLayerShape c (b, n, c) = .ok (b, n, c) := by
  simp [selfAttentionLayerShape, residualShape, selfAttentionShape, layerNormShape,
    multiHeadAttentionShape, dropoutShape, addShape, mlpShape_fixed, Except.bind, ok_bind]

lemma selfAttentionBlockShape_fixed (k c b n : Nat) :
    selfAttentionBlockShape k c (b, n, c) = .ok (b, n, c) := by
  induction k with
  | zero => rfl
  | succ k ih => simp [selfAttentionBlockShape, selfAttentionLayerShape_fixed, ih, Except.bind, ok_bind]

lemma perceiverLayerShape_fixed (cfg : EncoderShapeCfg) (b m : Nat) :
    perceiverLayerShape cfg (b, cfg.latentN, cfg.latentC) (b, m, cfg.num_input_channels)
      = .ok (b, cfg.latentN, cfg.latentC) := by
  simp [perceiverLayerShape, crossAttentionLayerShape_fixed, selfAttentionBlockShape_fixed,
    Except.bind, ok_bind]

lemma encoderIterShape_fixed (cfg : EncoderShapeCfg) (b m k : Nat) :
    encoderIterShape cfg (b, m, cfg.num_input_channels) k (b, cfg.latentN, cfg.latentC)
      = .ok (b, cfg.latentN, cfg.latentC) := by
  induction k with
  | zero => rfl
  | succ k ih => simp [encoderIterShape, perceiverLayerShape_fixed, ih, Except.bind, ok_bind]

/-- C6: For every batch size `b`, input sequence length `m`, input channel
width, and encoder configured with latent shape `(latentN, latentC)`,
`PerceiverEncoder.forward` returns a tensor of shape exactly
`(b, latentN, latentC)`; in particular the output shape does not depend
on `m`. -/
theorem encoder_output_shape (cfg : EncoderShapeCfg) (b m : Nat) :
    encoderForwardShape cfg b m = .ok (b, cfg.latentN, cfg.latentC) := by
  simp [encoderForwardShape, perceiverLayerShape_fixed, encoderIterShape_fixed, Except.bind, ok_bind]

/-- Construction-time configuration of `PerceiverDecoder` (model.py
lines 192-223): the declared latent shape `(N, C_latent)` and the output
adapter's declared `output_shape = (K, C_output)`.  As in model.py
lines 212-213, `num_latent_channels = latent_shape[1]` and
`num_output_channels = output_shape[-1]`. -/
structure DecoderShapeCfg where
  latent_shape : Nat × Nat
  output_shape : Nat × Nat

/-- Shape semantics of `PerceiverDecoder.forward` (model.py lines 229-237), up
to the cross-attention output that is handed to the output adapter: unpack
`b, *d = x.shape`, raise a `ValueError` naming both shapes when `tuple(d)`
differs from the declared latent shape, otherwise broadcast the output-query
parameter to `(b, K, C_output)` and run the cross-attention layer with the
output query as query stream and the latent tensor as key/value stream. -/
def decoderForwardShape (cfg : DecoderShapeCfg) (x : Shape3) : Except PyErr Shape3 :=
  let b := x.1
  let d : Nat × Nat := (x.2.1, x.2.2)
  if d ≠ cfg.latent_shape then
    .error (.valueError d cfg.latent_shape)
  else
    let output : Shape3 := (b, cfg.output_shape.1, cfg.output_shape.2)
    crossAttentionLayerShape cfg.output_shape.2 cfg.latent_shape.2 output x

/-- C2: For every input of shape `(b, d1, d2)`, the decoder raises the
shape-mismatch `ValueError` if and only if `(d1, d2)` differs from the latent
shape fixed at construction, with a message naming both the observed and the
expected shape; when the shapes match, the cross-attention output passed to
the output adapter has shape `(b, K, C_output)` where `(K, C_output)` is the
output adapter's declared output shape. -/
theorem decoder_shape_check (cfg : DecoderShapeCfg) (b d1 d2 : Nat) :
    ((d1, d2) ≠ cfg.latent_shape →
        decoderForwardShape cfg (b, d1, d2)
          = .error (.valueError (d1, d2) cfg.latent_shape) ∧
        (PyErr.valueError (d1, d2) cfg.latent_shape).message
          = "Latent shape " ++ toString (d1, d2)
              ++ " different from required shape " ++ toString cfg.latent_shape) ∧
    ((d1, d2) = cfg.latent_shape →
        decoderForwardShape cfg (b, d1, d2)
          = .ok (b, cfg.output_shape.1, cfg.output_shape.2)) := by
  obtain ⟨⟨n, cl⟩, ⟨k, co⟩⟩ := cfg
  constructor
  · intro hne
    refine ⟨?_, rfl⟩
    simp only [decoderForwardShape]
    rw [if_pos hne]
  · intro heq
    have h1 : d1 = n := (Prod.mk.injEq _ _ _ _).mp heq |>.1
    have h2 : d2 = cl := (Prod.mk.injEq _ _ _ _).mp heq |>.2
    subst h1 h2
    simp [decoderForwardShape, crossAttentionLayerShape_fixed]

/-- Witness for C2, at the scenario of spec §8: a decoder built for latent
shape (4, 8) and output shape (512, 64), fed a (2, 4, 9) tensor, raises the
error naming (4, 9) and (4, 8); fed a (2, 4, 8) tensor, it hands the adapter
a (2, 512, 64) tensor. -/
theorem decoder_shape_check_witness :
    (decoderForwardShape ⟨(4, 8), (512, 64)⟩ (2, 4, 9)
        = .error (.valueError (4, 9) (4, 8)) ∧
      (PyErr.valueError (4, 9) (4, 8)).message
        = "Latent shape " ++ toString ((4 : Nat), (9 : Nat))
            ++ " different from required shape " ++ toString ((4 : Nat), (8 : Nat))) ∧
    decoderForwardShape ⟨(4, 8), (512, 64)⟩ (2, 4, 8) = .ok (2, 512, 64) :=
  ⟨(decoder_shape_check ⟨(4, 8), (512, 64)⟩ 2 4 9).1 (by decide),
   (decoder_shape_check ⟨(4, 8), (512, 64)⟩ 2 4 8).2 (by decide)⟩

/-- A compound perceiver layer as created by `create_perceiver_layer`
(model.py lines 150-160), at value level: a parameterized function from
(latent, key-value input) to latent.  `pid` reifies the identity of the
parameter objects the layer owns: each call of `create_perceiver_layer`
initializes a fresh, independent set of weights, so two layers created by
distinct calls carry distinct `pid`s, and two applications of the very same
stored layer carry the same `pid`. -/
structure CompoundLayer (T I : Type) where
  pid : Nat
  f : T → I → T

/-- Value-level model of `PerceiverEncoder` state after `__init__` (model.py
lines 143-170): the primary layer `layer_1`, the shared layer `layer_n`
(present only when `num_layers > 1`), the iteration count and the latent
parameter.  The batch broadcast of the latent and the input adapter are folded
into the abstract types `T` and `I`. -/
structure PerceiverEncoderM (T I : Type) where
  layer_1 : CompoundLayer T I
  layer_n : Option (CompoundLayer T I)
  num_layers : Nat
  latent : T

/-- `PerceiverEncoder.__init__` (model.py lines 162-166): `layer_1` is built
by the first call of `create_perceiver_layer`; only if `num_layers > 1` is a
second layer `layer_n` built, by a second call with fresh parameters.
`create k` is the layer function produced by the k-th call. -/
def PerceiverEncoderM.init {T I : Type} (create : Nat → T → I → T) (latent0 : T)
    (L : Nat) : PerceiverEncoderM T I :=
  { layer_1 := ⟨0, create 0⟩
  , layer_n := if L > 1 then some ⟨1, create 1⟩ else none
  , num_layers := L
  , latent := latent0 }

/-- The compound layers the constructor created (the module's owned
sub-layers). -/
def PerceiverEncoderM.createdLayers {T I : Type} (e : PerceiverEncoderM T I) :
    List (CompoundLayer T I) :=
  e.layer_1 :: e.layer_n.toList

/-- The loop `for i in range(self.num_layers - 1): x_latent =
self.layer_n(x_latent, x, pad_mask)` (model.py lines 186-187): apply the
stored shared layer `n` times, feeding each iteration's latent output into the
next iteration; record the `pid` of the layer applied at each iteration.  If
the loop body runs while no `layer_n` attribute exists, Python raises an
`AttributeError`. -/
def applyLayerN {T I : Type} (layer_n : Option (CompoundLayer T I)) (x : I) :
    Nat → T → Except PyErr (T × List Nat)
  | 0, lat => .ok (lat, [])
  | k + 1, lat =>
    match layer_n with
    | none => .error (.attributeError "PerceiverEncoder object has no attribute layer_n")
    | some ln => do
      let (res, tr) ← applyLayerN (some ln) x k (ln.f lat x)
      .ok (res, ln.pid :: tr)

/-- `PerceiverEncoder.forward` (model.py lines 176-189) at value level,
instrumented with the identity (`pid`) of the compound layer applied at each
iteration, in order. -/
def PerceiverEncoderM.forwardTrace {T I : Type} (e : PerceiverEncoderM T I) (x : I) :
    Except PyErr (T × List Nat) := do
  let lat1 := e.layer_1.f e.latent x
  let (res, tr) ← applyLayerN e.layer_n x (e.num_layers - 1) lat1
  .ok (res, e.layer_1.pid :: tr)

lemma applyLayerN_some {T I : Type} (ln : CompoundLayer T I) (x : I) (k : Nat) (lat : T) :
    applyLayerN (some ln) x k lat
      = .ok ((fun t => ln.f t x)^[k] lat, List.replicate k ln.pid) := by
  induction k generalizing lat with
  | zero => rfl
  | succ k ih =>
      rw [applyLayerN, ih, Function.iterate_succ_apply, List.replicate_succ]
      rfl

/-- C1: For every encoder constructed with `num_layers = L > 1`, construction
creates exactly two compound layers regardless of `L` (`layer_1`, and the
shared `layer_n` holding independently initialized parameters), and forward
applies the primary layer once and then the single shared layer exactly
`L - 1` further times, using the identical parameter objects (the stored
`layer_n`, same `pid` at every iteration from 2 through `L`), with each
iteration's latent output fed as the next iteration's latent input; for
`L = 1` no shared layer exists. -/
theorem encoder_weight_sharing {T I : Type} (create : Nat → T → I → T) (latent0 : T)
    (L : Nat) (x : I) (hL : 1 < L) :
    (PerceiverEncoderM.init create latent0 L : PerceiverEncoderM T I).createdLayers.length = 2 ∧
    (PerceiverEncoderM.init create latent0 L : PerceiverEncoderM T I).layer_n
      = some ⟨1, create 1⟩ ∧
    (PerceiverEncoderM.init create latent0 L : PerceiverEncoderM T I).forwardTrace x
      = .ok ((fun t => create 1 t x)^[L - 1] (create 0 latent0 x),
             0 :: List.replicate (L - 1) 1) ∧
    (PerceiverEncoderM.init create latent0 1 : PerceiverEncoderM T I).layer_n = none := by
  have hn : (PerceiverEncoderM.init create latent0 L : PerceiverEncoderM T I).layer_n
      = some ⟨1, create 1⟩ := by
    simp [PerceiverEncoderM.init, hL]
  refine ⟨?_, hn, ?_, by simp [PerceiverEncoderM.init]⟩
  · simp [PerceiverEncoderM.createdLayers, hn]
  · rw [PerceiverEncoderM.forwardTrace, hn, applyLayerN_some]
    rfl

/-- Witness for C1 at `L = 3` with concrete layer functions on `Nat`. -/
theorem encoder_weight_sharing_witness :
    (PerceiverEncoderM.init (fun k t i => t + k + i) 7 3 : PerceiverEncoderM Nat Nat).createdLayers.length = 2 ∧
    (PerceiverEncoderM.init (fun k t i => t + k + i) 7 3 : PerceiverEncoderM Nat Nat).layer_n
      = some ⟨1, (fun k t i => t + k + i) 1⟩ ∧
    (PerceiverEncoderM.init (fun k t i => t + k + i) 7 3 : PerceiverEncoderM Nat Nat).forwardTrace 5
      = .ok ((fun t => (fun k t i => t + k + i) 1 t 5)^[3 - 1] ((fun k t i => t + k + i) 0 7 5),
             0 :: List.replicate (3 - 1) 1) ∧
    (PerceiverEncoderM.init (fun k t i => t + k + i) 7 1 : PerceiverEncoderM Nat Nat).layer_n = none :=
  encoder_weight_sharing (fun k t i => t + k + i) 7 3 5 (by decide)

/-- `TextMasking` configuration (model.py lines 240-255).  The type `K` of
probabilities abstracts the float values compared against the draws of
`torch.rand_like` (uniform on [0,1)); it is instantiated at ℚ for evaluation
and at ℝ for probability statements. -/
structure TextMasking (K : Type) where
  vocab_size : Nat
  unk_token_id : Nat
  mask_token_id : Nat
  num_special_tokens : Nat
  mask_p : K

/-- `is_special` for one position (model.py lines 269-270): the token equals
the unknown-token id, or the position is padding. -/
def TextMasking.isSpecial {K : Type} (m : TextMasking K) (tok : Nat) (pad : Bool) : Bool :=
  (tok == m.unk_token_id) || pad

/-- `is_selected` for one position (model.py lines 276-277): a uniform draw
`r1` falls below `mask_p`, and the position is not special. -/
def TextMasking.isSelected {K : Type} [LinearOrderedField K] (m : TextMasking K)
    (tok : Nat) (pad : Bool) (r1 : K) : Bool :=
  decide (r1 < m.mask_p) && !(m.isSpecial tok pad)

/-- One position of `TextMasking.forward` (model.py lines 265-293).  All the
tensor operations of the source are elementwise, so the forward pass is the
per-position map below applied at every position: `r1`, `r2`, `r3` are this
position's draws from the three `torch.rand_like` tensors (lines 276, 280,
281) and `rtok` its draw from `torch.randint(num_special_tokens, vocab_size)`
(lines 286-289; the draw only lands in `x` at positions where `is_selected_2`
holds).  The float literals `0.9` and `1 / 9` of the source are the exact
rationals 9/10 and 1/9 here.  Returns (corrupted token, label). -/
def TextMasking.step {K : Type} [LinearOrderedField K] (m : TextMasking K)
    (tok : Nat) (pad : Bool) (r1 r2 r3 : K) (rtok : Nat) : Nat × Int :=
  let label0 : Int := tok
  let sel := m.isSelected tok pad r1
  let sel1 := sel && decide (r2 < 9 / 10)
  let sel2 := sel1 && decide (r3 < 1 / 9)
  let x1 := if sel1 then m.mask_token_id else tok
  let x2 := if sel2 then rtok else x1
  let label := if sel then label0 else -100
  (x2, label)

/-- A rank-2 tensor: a (rows, columns) shape together with an index
function. -/
structure Tensor2 (α : Type) where
  shape : Nat × Nat
  data : Nat → Nat → α

/-- `TextMasking.forward` (model.py lines 265-293) on `(B, L)` tensors.
`pad_mask = none` models passing Python `None`: line 270,
`is_special |= pad_mask`, then raises a `TypeError` (in-place `or` between a
tensor and `NoneType` is unsupported), before any token is corrupted.  The
random tensors are passed in explicitly. -/
def TextMasking.forwardT {K : Type} [LinearOrderedField K] (m : TextMasking K)
    (x : Tensor2 Nat) (pad_mask : Option (Tensor2 Bool))
    (r1 r2 r3 : Nat → Nat → K) (rtok : Nat → Nat → Nat) :
    Except PyErr (Tensor2 Nat × Tensor2 Int) :=
  match pad_mask with
  | none => .error (.typeError "unsupported operand type(s) for |=: Tensor and NoneType")
  | some pm =>
    .ok (⟨x.shape, fun i j =>
            (m.step (x.data i j) (pm.data i j) (r1 i j) (r2 i j) (r3 i j) (rtok i j)).1⟩,
         ⟨x.shape, fun i j =>
            (m.step (x.data i j) (pm.data i j) (r1 i j) (r2 i j) (r3 i j) (rtok i j)).2⟩)

lemma step_label_of_selected {K : Type} [LinearOrderedField K] (m : TextMasking K)
    (tok : Nat) (pad : Bool) (r1 r2 r3 : K) (rtok : Nat)
    (h : m.isSelected tok pad r1 = true) :
    (m.step tok pad r1 r2 r3 rtok).2 = tok := by
  simp [TextMasking.step, h]

lemma step_label_of_not_selected {K : Type} [LinearOrderedField K] (m : TextMasking K)
    (tok : Nat) (pad : Bool) (r1 r2 r3 : K) (rtok : Nat)
    (h : m.isSelected tok pad r1 = false) :
    (m.step tok pad r1 r2 r3 rtok).2 = -100 := by
  simp [TextMasking.step, h]

/-- C3: For every call of `TextMasking.forward` on tokens and padding mask,
and for every position: the returned label equals the ignore sentinel -100 if
and only if the position was not selected for the MLM objective; at every
selected position the label equals the original pre-corruption token id
exactly, including in the unchanged-but-selected case (selected but outside
the replace-group), where the corrupted token also equals the original. -/
theorem textmasking_label_correctness {K : Type} [LinearOrderedField K]
    (m : TextMasking K) (x : Tensor2 Nat) (pm : Tensor2 Bool)
    (r1 r2 r3 : Nat → Nat → K) (rtok : Nat → Nat → Nat)
    (xm : Tensor2 Nat) (lb : Tensor2 Int) (i j : Nat)
    (h : m.forwardT x (some pm) r1 r2 r3 rtok = .ok (xm, lb)) :
    (lb.data i j = -100
        ↔ m.isSelected (x.data i j) (pm.data i j) (r1 i j) = false) ∧
    (m.isSelected (x.data i j) (pm.data i j) (r1 i j) = true
        → lb.data i j = (x.data i j : Int)) ∧
    (m.isSelected (x.data i j) (pm.data i j) (r1 i j) = true
        → ¬ r2 i j < 9 / 10
        → xm.data i j = x.data i j ∧ lb.data i j = (x.data i j : Int)) := by
  rw [TextMasking.forwardT] at h
  obtain ⟨hx, hl⟩ := (Prod.mk.injEq _ _ _ _).mp (Except.ok.inj h)
  subst hx hl
  dsimp only
  refine ⟨?_, ?_, ?_⟩
  · cases hsel : m.isSelected (x.data i j) (pm.data i j) (r1 i j) with
    | false => simp [step_label_of_not_selected _ _ _ _ _ _ _ hsel]
    | true =>
        rw [step_label_of_selected _ _ _ _ _ _ _ hsel]
        constructor
        · intro hc; omega
        · intro hc; simp at hc
  · intro hsel
    exact step_label_of_selected _ _ _ _ _ _ _ hsel
  · intro hsel hr2
    refine ⟨?_, step_label_of_selected _ _ _ _ _ _ _ hsel⟩
    simp [TextMasking.step, hsel, hr2]

lemma isSelected_eq_true {K : Type} [LinearOrderedField K] (m : TextMasking K)
    (tok : Nat) (pad : Bool) (r1 : K) :
    m.isSelected tok pad r1 = true ↔ r1 < m.mask_p ∧ m.isSpecial tok pad = false := by
  simp [TextMasking.isSelected]

lemma step_eq_mask_iff {K : Type} [LinearOrderedField K] (m : TextMasking K)
    (tok : Nat) (pad : Bool) (r1 r2 r3 : K) (rtok : Nat)
    (hsel : m.isSelected tok pad r1 = true)
    (htm : tok ≠ m.mask_token_id) (hrm : rtok ≠ m.mask_token_id) :
    (m.step tok pad r1 r2 r3 rtok).1 = m.mask_token_id ↔ r2 < 9 / 10 ∧ ¬ r3 < 1 / 9 := by
  by_cases h2 : r2 < 9 / 10 <;> by_cases h3 : r3 < 1 / 9 <;>
    simp [TextMasking.step, hsel, h2, h3, htm, hrm]

lemma step_eq_rtok_iff {K : Type} [LinearOrderedField K] (m : TextMasking K)
    (tok : Nat) (pad : Bool) (r1 r2 r3 : K) (rtok : Nat)
    (hsel : m.isSelected tok pad r1 = true)
    (hrm : rtok ≠ m.mask_token_id) (hrt : rtok ≠ tok) :
    (m.step tok pad r1 r2 r3 rtok).1 = rtok ↔ r2 < 9 / 10 ∧ r3 < 1 / 9 := by
  by_cases h2 : r2 < 9 / 10 <;> by_cases h3 : r3 < 1 / 9 <;>
    simp [TextMasking.step, hsel, h2, h3, Ne.symm hrm, Ne.symm hrt]

lemma step_eq_tok_iff {K : Type} [LinearOrderedField K] (m : TextMasking K)
    (tok : Nat) (pad : Bool) (r1 r2 r3 : K) (rtok : Nat)
    (hsel : m.isSelected tok pad r1 = true)
    (htm : tok ≠ m.mask_token_id) (hrt : rtok ≠ tok) :
    (m.step tok pad r1 r2 r3 rtok).1 = tok ↔ ¬ r2 < 9 / 10 := by
  by_cases h2 : r2 < 9 / 10 <;> by_cases h3 : r3 < (9 : K)⁻¹ <;>
    simp [TextMasking.step, hsel, h2, h3, Ne.symm htm, hrt, one_div]

lemma maskOutcome_set (m : TextMasking ℝ) (tok rtok : Nat) (pad : Bool) (r1 : ℝ)
    (hsel : m.isSelected tok pad r1 = true)
    (htm : tok ≠ m.mask_token_id) (hrm : rtok ≠ m.mask_token_id) :
    {p : ℝ × ℝ | p ∈ Set.Ico (0 : ℝ) 1 ×ˢ Set.Ico (0 : ℝ) 1 ∧
        (m.step tok pad r1 p.1 p.2 rtok).1 = m.mask_token_id}
      = Set.Ico (0 : ℝ) (9 / 10) ×ˢ Set.Ico (1 / 9 : ℝ) 1 := by
  ext p
  obtain ⟨a, b⟩ := p
  simp only [Set.mem_setOf_eq, Set.mem_prod, Set.mem_Ico,
    step_eq_mask_iff m tok pad r1 a b rtok hsel htm hrm, not_lt]
  constructor
  · rintro ⟨⟨⟨ha0, _⟩, _, hb1⟩, h2, h3⟩
    exact ⟨⟨ha0, h2⟩, h3, hb1⟩
  · rintro ⟨⟨ha0, ha9⟩, hb19, hb1⟩
    exact ⟨⟨⟨ha0, lt_trans ha9 (by norm_num)⟩, le_trans (by norm_num) hb19, hb1⟩, ha9, hb19⟩

lemma randOutcome_set (m : TextMasking ℝ) (tok rtok : Nat) (pad : Bool) (r1 : ℝ)
    (hsel : m.isSelected tok pad r1 = true)
    (hrm : rtok ≠ m.mask_token_id) (hrt : rtok ≠ tok) :
    {p : ℝ × ℝ | p ∈ Set.Ico (0 : ℝ) 1 ×ˢ Set.Ico (0 : ℝ) 1 ∧
        (m.step tok pad r1 p.1 p.2 rtok).1 = rtok}
      = Set.Ico (0 : ℝ) (9 / 10) ×ˢ Set.Ico (0 : ℝ) (1 / 9) := by
  ext p
  obtain ⟨a, b⟩ := p
  simp only [Set.mem_setOf_eq, Set.mem_prod, Set.mem_Ico,
    step_eq_rtok_iff m tok pad r1 a b rtok hsel hrm hrt]
  constructor
  · rintro ⟨⟨⟨ha0, _⟩, hb0, _⟩, h2, h3⟩
    exact ⟨⟨ha0, h2⟩, hb0, h3⟩
  · rintro ⟨⟨ha0, ha9⟩, hb0, hb19⟩
    exact ⟨⟨⟨ha0, lt_trans ha9 (by norm_num)⟩, hb0, lt_trans hb19 (by norm_num)⟩, ha9, hb19⟩

lemma keepOutcome_set (m : TextMasking ℝ) (tok rtok : Nat) (pad : Bool) (r1 : ℝ)
    (hsel : m.isSelected tok pad r1 = true)
    (htm : tok ≠ m.mask_token_id) (hrt : rtok ≠ tok) :
    {p : ℝ × ℝ | p ∈ Set.Ico (0 : ℝ) 1 ×ˢ Set.Ico (0 : ℝ) 1 ∧
        (m.step tok pad r1 p.1 p.2 rtok).1 = tok}
      = Set.Ico (9 / 10 : ℝ) 1 ×ˢ Set.Ico (0 : ℝ) 1 := by
  ext p
  obtain ⟨a, b⟩ := p
  simp only [Set.mem_setOf_eq, Set.mem_prod, Set.mem_Ico,
    step_eq_tok_iff m tok pad r1 a b rtok hsel htm hrt, not_lt]
  constructor
  · rintro ⟨⟨⟨_, ha1⟩, hb⟩, h2⟩
    exact ⟨⟨h2, ha1⟩, hb⟩
  · rintro ⟨⟨ha9, ha1⟩, hb⟩
    exact ⟨⟨⟨le_trans (by norm_num) ha9, ha1⟩, hb⟩, ha9⟩

lemma selection_set (m : TextMasking ℝ) (tok : Nat) (pad : Bool)
    (hsp : m.isSpecial tok pad = false) (hp1 : m.mask_p ≤ 1) :
    {r : ℝ | r ∈ Set.Ico (0 : ℝ) 1 ∧ m.isSelected tok pad r = true}
      = Set.Ico 0 m.mask_p := by
  ext r
  simp only [Set.mem_setOf_eq, Set.mem_Ico, isSelected_eq_true, hsp, and_true]
  constructor
  · rintro ⟨⟨h0, _⟩, hp⟩
    exact ⟨h0, hp⟩
  · rintro ⟨h0, hp⟩
    exact ⟨⟨h0, lt_of_lt_of_le hp hp1⟩, hp⟩

lemma volume_Ico_prod (a b c d : ℝ) :
    MeasureTheory.volume (Set.Ico a b ×ˢ Set.Ico c d)
      = ENNReal.ofReal (b - a) * ENNReal.ofReal (d - c) := by
  rw [MeasureTheory.Measure.volume_eq_prod, MeasureTheory.Measure.prod_prod,
    Real.volume_Ico, Real.volume_Ico]

/-- C5: Every selected position has exactly one of three outcomes, determined
by the two further Bernoulli draws (the 0.9 draw marking the replace-group,
then the 1/9 draw inside the replace-group marking the random-token
subgroup): replace-group positions outside the random subgroup receive the
mask-token id, random-subgroup positions receive the drawn token id, which
lies in [num_special_tokens, vocab_size), and all other selected positions
keep their original id.  Over uniform draws on [0,1) the per-selected-position
probabilities are exactly 0.8, 0.1 and 0.1, and a non-special position is
selected with probability exactly mask_p. -/
theorem textmasking_outcome_ratios (m : TextMasking ℝ) (tok rtok : Nat) (pad : Bool)
    (r1 : ℝ)
    (hsel : m.isSelected tok pad r1 = true)
    (htm : tok ≠ m.mask_token_id) (hrm : rtok ≠ m.mask_token_id) (hrt : rtok ≠ tok)
    (hrlo : m.num_special_tokens ≤ rtok) (hrhi : rtok < m.vocab_size)
    (hp1 : m.mask_p ≤ 1) :
    (∀ r2 r3 : ℝ,
      (r2 < 9 / 10 ∧ ¬ r3 < 1 / 9 →
        (m.step tok pad r1 r2 r3 rtok).1 = m.mask_token_id) ∧
      (r2 < 9 / 10 ∧ r3 < 1 / 9 →
        (m.step tok pad r1 r2 r3 rtok).1 = rtok ∧
        m.num_special_tokens ≤ (m.step tok pad r1 r2 r3 rtok).1 ∧
        (m.step tok pad r1 r2 r3 rtok).1 < m.vocab_size) ∧
      (¬ r2 < 9 / 10 → (m.step tok pad r1 r2 r3 rtok).1 = tok)) ∧
    MeasureTheory.volume {p : ℝ × ℝ | p ∈ Set.Ico (0 : ℝ) 1 ×ˢ Set.Ico (0 : ℝ) 1 ∧
        (m.step tok pad r1 p.1 p.2 rtok).1 = m.mask_token_id}
      = ENNReal.ofReal (8 / 10) ∧
    MeasureTheory.volume {p : ℝ × ℝ | p ∈ Set.Ico (0 : ℝ) 1 ×ˢ Set.Ico (0 : ℝ) 1 ∧
        (m.step tok pad r1 p.1 p.2 rtok).1 = rtok}
      = ENNReal.ofReal (1 / 10) ∧
    MeasureTheory.volume {p : ℝ × ℝ | p ∈ Set.Ico (0 : ℝ) 1 ×ˢ Set.Ico (0 : ℝ) 1 ∧
        (m.step tok pad r1 p.1 p.2 rtok).1 = tok}
      = ENNReal.ofReal (1 / 10) ∧
    MeasureTheory.volume {r : ℝ | r ∈ Set.Ico (0 : ℝ) 1 ∧ m.isSelected tok pad r = true}
      = ENNReal.ofReal m.mask_p := by
  have hsp : m.isSpecial tok pad = false :=
    ((isSelected_eq_true m tok pad r1).mp hsel).2
  refine ⟨?_, ?_, ?_, ?_, ?_⟩
  · intro r2 r3
    refine ⟨?_, ?_, ?_⟩
    · exact fun h => (step_eq_mask_iff m tok pad r1 r2 r3 rtok hsel htm hrm).mpr h
    · intro h
      have hv := (step_eq_rtok_iff m tok pad r1 r2 r3 rtok hsel hrm hrt).mpr h
      exact ⟨hv, by rw [hv]; exact hrlo, by rw [hv]; exact hrhi⟩
    · exact fun h => (step_eq_tok_iff m tok pad r1 r2 r3 rtok hsel htm hrt).mpr h
  · rw [maskOutcome_set m tok rtok pad r1 hsel htm hrm, volume_Ico_prod,
      ← ENNReal.ofReal_mul (by norm_num)]
    congr 1
    norm_num
  · rw [randOutcome_set m tok rtok pad r1 hsel hrm hrt, volume_Ico_prod,
      ← ENNReal.ofReal_mul (by norm_num)]
    congr 1
    norm_num
  · rw [keepOutcome_set m tok rtok pad r1 hsel htm hrt, volume_Ico_prod,
      ← ENNReal.ofReal_mul (by norm_num)]
    congr 1
    norm_num
  · rw [selection_set m tok pad hsp hp1, Real.volume_Ico, sub_zero]

/-- Concrete masking configuration over ℝ for the C5 witness: vocabulary
30000, unknown-token id 0, mask-token id 1, five special tokens, mask
probability 1. -/
def mWR : TextMasking ℝ := ⟨30000, 0, 1, 5, 1⟩

/-- Witness for C5 at token 10 (non-special, selected under the draw 0),
randint draw 7. -/
theorem textmasking_outcome_ratios_witness :
    (∀ r2 r3 : ℝ,
      (r2 < 9 / 10 ∧ ¬ r3 < 1 / 9 →
        (mWR.step 10 false 0 r2 r3 7).1 = mWR.mask_token_id) ∧
      (r2 < 9 / 10 ∧ r3 < 1 / 9 →
        (mWR.step 10 false 0 r2 r3 7).1 = 7 ∧
        mWR.num_special_tokens ≤ (mWR.step 10 false 0 r2 r3 7).1 ∧
        (mWR.step 10 false 0 r2 r3 7).1 < mWR.vocab_size) ∧
      (¬ r2 < 9 / 10 → (mWR.step 10 false 0 r2 r3 7).1 = 10)) ∧
    MeasureTheory.volume {p : ℝ × ℝ | p ∈ Set.Ico (0 : ℝ) 1 ×ˢ Set.Ico (0 : ℝ) 1 ∧
        (mWR.step 10 false 0 p.1 p.2 7).1 = mWR.mask_token_id}
      = ENNReal.ofReal (8 / 10) ∧
    MeasureTheory.volume {p : ℝ × ℝ | p ∈ Set.Ico (0 : ℝ) 1 ×ˢ Set.Ico (0 : ℝ) 1 ∧
        (mWR.step 10 false 0 p.1 p.2 7).1 = 7}
      = ENNReal.ofReal (1 / 10) ∧
    MeasureTheory.volume {p : ℝ × ℝ | p ∈ Set.Ico (0 : ℝ) 1 ×ˢ Set.Ico (0 : ℝ) 1 ∧
        (mWR.step 10 false 0 p.1 p.2 7).1 = 10}
      = ENNReal.ofReal (1 / 10) ∧
    MeasureTheory.volume {r : ℝ | r ∈ Set.Ico (0 : ℝ) 1 ∧ mWR.isSelected 10 false r = true}
      = ENNReal.ofReal mWR.mask_p :=
  textmasking_outcome_ratios mWR 10 7 false 0
    ((isSelected_eq_true mWR 10 false 0).mpr ⟨zero_lt_one, rfl⟩)
    (by decide) (by decide) (by decide) (by decide) (by decide)
    le_rfl

/-- A concrete masking configuration used by evaluation witnesses:
vocabulary 30000, unknown-token id 0, mask-token id 1, five special tokens,
mask probability 0.15. -/
def mlmW : TextMasking ℚ := ⟨30000, 0, 1, 5, 15 / 100⟩

/-- Concrete token tensor for witnesses: shape (4, 4), token `i + j + 10`. -/
def xW : Tensor2 Nat := ⟨(4, 4), fun i j => i + j + 10⟩

/-- Concrete padding mask for witnesses: rows 2 and up are padding. -/
def pmW : Tensor2 Bool := ⟨(4, 4), fun i _ => decide (2 ≤ i)⟩

/-- Concrete selection draws: 0.1, below the mask probability. -/
def r1W : Nat → Nat → ℚ := fun _ _ => 1 / 10

/-- Concrete replace-group draws: 0.95, outside the replace-group. -/
def r2W : Nat → Nat → ℚ := fun _ _ => 95 / 100

/-- Concrete random-subgroup draws. -/
def r3W : Nat → Nat → ℚ := fun _ _ => 1 / 2

/-- Concrete randint draws. -/
def rtokW : Nat → Nat → Nat := fun _ _ => 7

/-- The corrupted-token tensor the witness scenario produces. -/
def xmW : Tensor2 Nat :=
  ⟨(4, 4), fun i j =>
    (mlmW.step (xW.data i j) (pmW.data i j) (r1W i j) (r2W i j) (r3W i j) (rtokW i j)).1⟩

/-- The label tensor the witness scenario produces. -/
def lbW : Tensor2 Int :=
  ⟨(4, 4), fun i j =>
    (mlmW.step (xW.data i j) (pmW.data i j) (r1W i j) (r2W i j) (r3W i j) (rtokW i j)).2⟩

/-- Witness for C3 at position (0, 0) of the concrete scenario: a selected,
unchanged-but-selected position. -/
theorem textmasking_label_correctness_witness :
    (lbW.data 0 0 = -100
        ↔ mlmW.isSelected (xW.data 0 0) (pmW.data 0 0) (r1W 0 0) = false) ∧
    (mlmW.isSelected (xW.data 0 0) (pmW.data 0 0) (r1W 0 0) = true
        → lbW.data 0 0 = (xW.data 0 0 : Int)) ∧
    (mlmW.isSelected (xW.data 0 0) (pmW.data 0 0) (r1W 0 0) = true
        → ¬ r2W 0 0 < 9 / 10
        → xmW.data 0 0 = xW.data 0 0 ∧ lbW.data 0 0 = (xW.data 0 0 : Int)) :=
  textmasking_label_correctness mlmW xW pmW r1W r2W r3W rtokW xmW lbW 0 0 rfl

/-- C4: For every call of `TextMasking.forward` and every random draw, no
position whose original token equals the unknown-token id and no padding
position is ever selected: such positions keep their original token in the
returned masked tensor and carry the ignore sentinel -100 in the labels. -/
theorem textmasking_special_exclusion {K : Type} [LinearOrderedField K]
    (m : TextMasking K) (x : Tensor2 Nat) (pm : Tensor2 Bool)
    (r1 r2 r3 : Nat → Nat → K) (rtok : Nat → Nat → Nat)
    (xm : Tensor2 Nat) (lb : Tensor2 Int) (i j : Nat)
    (h : m.forwardT x (some pm) r1 r2 r3 rtok = .ok (xm, lb))
    (hsp : x.data i j = m.unk_token_id ∨ pm.data i j = true) :
    m.isSelected (x.data i j) (pm.data i j) (r1 i j) = false ∧
    xm.data i j = x.data i j ∧
    lb.data i j = -100 := by
  rw [TextMasking.forwardT] at h
  obtain ⟨hx, hl⟩ := (Prod.mk.injEq _ _ _ _).mp (Except.ok.inj h)
  subst hx hl
  dsimp only
  have hspb : m.isSpecial (x.data i j) (pm.data i j) = true := by
    rcases hsp with h1 | h1 <;> simp [TextMasking.isSpecial, h1]
  have hsel : m.isSelected (x.data i j) (pm.data i j) (r1 i j) = false := by
    simp [TextMasking.isSelected, hspb]
  refine ⟨hsel, ?_, step_label_of_not_selected _ _ _ _ _ _ _ hsel⟩
  simp [TextMasking.step, hsel]

/-- Witness for C4 at position (2, 0) of the concrete scenario: a padding
position whose selection draw is below the mask probability, yet it is not
selected, keeps its token and carries -100. -/
theorem textmasking_special_exclusion_witness :
    mlmW.isSelected (xW.data 2 0) (pmW.data 2 0) (r1W 2 0) = false ∧
    xmW.data 2 0 = xW.data 2 0 ∧
    lbW.data 2 0 = -100 :=
  textmasking_special_exclusion mlmW xW pmW r1W r2W r3W rtokW xmW lbW 2 0 rfl (Or.inr rfl)

/-- A rank-3 tensor: a (dim0, dim1, dim2) shape together with an index
function. -/
structure Tensor3 (α : Type) where
  shape : Nat × Nat × Nat
  data : Nat → Nat → Nat → α

/-- The slice `t[:, :l, :]` (model.py line 316): the middle dimension is cut
to the first `l` positions (so its size becomes `min (size) l`), the values
are unchanged. -/
def Tensor3.truncSeq {α : Type} (t : Tensor3 α) (l : Nat) : Tensor3 α :=
  ⟨(t.shape.1, min t.shape.2.1 l, t.shape.2.2), t.data⟩

/-- Value-level model of `PerceiverMLM` (model.py lines 296-318): the encoder
and decoder are the constructor-injected sub-modules, kept abstract (`TL` is
the latent tensor type, `α` the logit element type); the masking module is the
`TextMasking` configuration. -/
structure PerceiverMLM (K TL α : Type) where
  encoder : Tensor2 Nat → Option (Tensor2 Bool) → TL
  decoder : TL → Tensor3 α
  masking : TextMasking K

/-- `PerceiverMLM.forward` (model.py lines 306-318): read `l` off the token
tensor's shape; if `masking` holds, corrupt the tokens through
`TextMasking.forward` (which propagates a `TypeError` when `pad_mask` is
`None`), otherwise pass the tokens through unmodified with labels `None`;
encode, decode, and truncate the decoder output to the first `l` sequence
positions.  The randomness of the masking branch is passed explicitly. -/
def PerceiverMLM.forward {K TL α : Type} [LinearOrderedField K]
    (mdl : PerceiverMLM K TL α) (x_input : Tensor2 Nat)
    (pad_mask : Option (Tensor2 Bool)) (masking : Bool)
    (r1 r2 r3 : Nat → Nat → K) (rtok : Nat → Nat → Nat) :
    Except PyErr (Tensor3 α × Option (Tensor2 Int)) := do
  let l := x_input.shape.2
  let (x_masked, x_labels) ←
    if masking then do
      let (a, b) ← mdl.masking.forwardT x_input pad_mask r1 r2 r3 rtok
      pure ((a, some b) : Tensor2 Nat × Option (Tensor2 Int))
    else
      pure ((x_input, none) : Tensor2 Nat × Option (Tensor2 Int))
  let x_latent := mdl.encoder x_masked pad_mask
  let x_logits := (mdl.decoder x_latent).truncSeq l
  pure (x_logits, x_labels)

/-- C7: With `masking = false`, `PerceiverMLM.forward` passes the tokens to
the encoder unmodified and returns labels `none`; in every case (also with
`masking = true`) the returned logits tensor is the decoder output truncated
along the sequence dimension to the first `l` positions, where `l` is the
sequence length of the input token tensor. -/
theorem mlm_forward_composition {TL α : Type} (mdl : PerceiverMLM ℚ TL α)
    (x_input : Tensor2 Nat) (pad_mask : Option (Tensor2 Bool))
    (r1 r2 r3 : Nat → Nat → ℚ) (rtok : Nat → Nat → Nat) :
    (mdl.forward x_input pad_mask false r1 r2 r3 rtok
      = .ok ((mdl.decoder (mdl.encoder x_input pad_mask)).truncSeq x_input.shape.2,
             none)) ∧
    (∀ (pm : Tensor2 Bool) (xm : Tensor2 Nat) (lb : Tensor2 Int),
      pad_mask = some pm →
      mdl.masking.forwardT x_input (some pm) r1 r2 r3 rtok = .ok (xm, lb) →
      mdl.forward x_input pad_mask true r1 r2 r3 rtok
        = .ok ((mdl.decoder (mdl.encoder xm (some pm))).truncSeq x_input.shape.2,
               some lb)) := by
  constructor
  · rfl
  · intro pm xm lb hpm hfw
    subst hpm
    rw [PerceiverMLM.forward]
    rw [if_pos rfl, hfw]
    rfl

/-- Witness for C7: a concrete MLM head over ℚ with a counting encoder and a
constant-shape decoder, applied to the concrete masking scenario. -/
theorem mlm_forward_composition_witness :
    ((⟨fun x _ => x.data 0 0, fun t => ⟨(1, 6, 2), fun _ _ _ => t⟩, mlmW⟩ :
        PerceiverMLM ℚ Nat Nat).forward xW (some pmW) false r1W r2W r3W rtokW
      = .ok ((⟨(1, 6, 2), fun _ _ _ => xW.data 0 0⟩ : Tensor3 Nat).truncSeq xW.shape.2,
             none)) ∧
    ((⟨fun x _ => x.data 0 0, fun t => ⟨(1, 6, 2), fun _ _ _ => t⟩, mlmW⟩ :
        PerceiverMLM ℚ Nat Nat).forward xW (some pmW) true r1W r2W r3W rtokW
      = .ok ((⟨(1, 6, 2), fun _ _ _ => xmW.data 0 0⟩ : Tensor3 Nat).truncSeq xW.shape.2,
             some lbW)) := by
  refine ⟨(mlm_forward_composition _ xW (some pmW) r1W r2W r3W rtokW).1, ?_⟩
  exact (mlm_forward_composition
      (⟨fun x _ => x.data 0 0, fun t => ⟨(1, 6, 2), fun _ _ _ => t⟩, mlmW⟩ :
        PerceiverMLM ℚ Nat Nat) xW (some pmW) r1W r2W r3W rtokW).2 pmW xmW lbW rfl rfl

/-- C10: Calling `PerceiverMLM.forward` with `masking = true` (the default)
and `pad_mask = None` (the default) always fails before any encoding happens:
`TextMasking.forward` OR-combines `pad_mask` into the special-position mask
unconditionally, raising a `TypeError` for `None`; the result is this error
for every encoder, decoder, token tensor and random draw. -/
theorem mlm_none_padmask_fails {TL α : Type} (mdl : PerceiverMLM ℚ TL α)
    (x_input : Tensor2 Nat) (r1 r2 r3 : Nat → Nat → ℚ) (rtok : Nat → Nat → Nat) :
    mdl.forward x_input none true r1 r2 r3 rtok
      = .error (.typeError "unsupported operand type(s) for |=: Tensor and NoneType") :=
  rfl

/-- Value-level model of `PerceiverDecoder` state after `__init__` (model.py
lines 210-223): the declared latent shape, the output-query parameter, the
cross-attention layer and the output adapter, over abstract tensor types
(`TL` latent, `O` output query stream, `R` adapter output).  `trailingShape`
extracts `x.shape[1:]` from an incoming latent tensor. -/
structure PerceiverDecoderM (TL O R : Type) where
  latent_shape : Nat × Nat
  trailingShape : TL → Nat × Nat
  output : O
  cross_attention : O → TL → O
  output_adapter : O → R

/-- `PerceiverDecoder.forward` (model.py lines 229-237) at value level:
validate the trailing shape, then cross-attend the output query over the
latent and run the output adapter. -/
def PerceiverDecoderM.forwardV {TL O R : Type} (d : PerceiverDecoderM TL O R)
    (x : TL) : Except PyErr R :=
  if d.trailingShape x ≠ d.latent_shape then
    .error (.valueError (d.trailingShape x) d.latent_shape)
  else
    .ok (d.output_adapter (d.cross_attention d.output x))

/-- State-threaded run of the encoder: `PerceiverEncoder.forward` (model.py
lines 176-189) only reads `self.input_adapter`, `self.latent`,
`self.layer_1`, `self.layer_n` and `self.num_layers`; no line of it assigns
a module attribute, so the module state it returns is the one it received. -/
def PerceiverEncoderM.runS {T I : Type} (e : PerceiverEncoderM T I) (x : I) :
    Except PyErr T × PerceiverEncoderM T I :=
  ((e.forwardTrace x).map Prod.fst, e)

/-- State-threaded run of the decoder: `PerceiverDecoder.forward` (model.py
lines 229-237) only reads `self.latent_shape`, `self.output`,
`self.cross_attention` and `self.output_adapter`; it assigns no module
attribute, so the module state it returns is the one it received. -/
def PerceiverDecoderM.runS {TL O R : Type} (d : PerceiverDecoderM TL O R)
    (x : TL) : Except PyErr R × PerceiverDecoderM TL O R :=
  (d.forwardV x, d)

/-- The whole model of model.py line 321-325: `PerceiverIO` is
`Sequential(encoder, decoder)` (the `Sequential` base is modelled from the
spec: run the encoder, feed its result to the decoder). -/
structure PerceiverIoM (T I O R : Type) where
  encoder : PerceiverEncoderM T I
  decoder : PerceiverDecoderM T O R

/-- State-threaded forward pass of `PerceiverIO` (model.py lines 321-325):
run the encoder on the input, then the decoder on the encoder's latent
output, threading each module's state through explicitly; an encoder error
short-circuits past the decoder. -/
def PerceiverIoM.runS {T I O R : Type} (p : PerceiverIoM T I O R) (x : I) :
    Except PyErr R × PerceiverIoM T I O R :=
  let (lat, enc2) := p.encoder.runS x
  match lat with
  | .error e => (.error e, ⟨enc2, p.decoder⟩)
  | .ok l =>
      let (out, dec2) := p.decoder.runS l
      (out, ⟨enc2, dec2⟩)

/-- C8: With all model parameters frozen, `PerceiverIO.forward` holds no
hidden mutable state: a forward pass returns the module state it received
unchanged, and a second call on that state with bit-identical input produces
bit-identical output. -/
theorem perceiver_io_deterministic {T I O R : Type} (p : PerceiverIoM T I O R)
    (x : I) :
    (p.runS x).2 = p ∧
    ((p.runS x).2.runS x).1 = (p.runS x).1 := by
  have hstate : (p.runS x).2 = p := by
    rw [PerceiverIoM.runS]
    dsimp [PerceiverEncoderM.runS, PerceiverDecoderM.runS]
    cases h : Except.map Prod.fst (p.encoder.forwardTrace x) with
    | error e => rfl
    | ok l => rfl
  exact ⟨hstate, by rw [hstate]⟩

/-- Value-level model of `CrossAttention` (model.py lines 77-99): the two
independent LayerNorms and the wrapped multi-head attention, over abstract
tensor types (`TQ` query stream, `TKV` key/value stream). -/
structure CrossAttentionM (TQ TKV : Type) where
  q_norm : TQ → TQ
  kv_norm : TKV → TKV
  attention : TQ → TKV → TQ

/-- `CrossAttention.forward` (model.py lines 96-99): normalize the query and
key/value streams independently, then attend. -/
def CrossAttentionM.forwardV {TQ TKV : Type} (c : CrossAttentionM TQ TKV)
    (x_q : TQ) (x_kv : TKV) : TQ :=
  c.attention (c.q_norm x_q) (c.kv_norm x_kv)

/-- `Residual.forward` (model.py lines 54-56) at value level:
`dropout(module(x)) + x`, where `x` is the first positional argument. -/
def residualV {TQ : Type} [Add TQ] (dropout : TQ → TQ) (module : TQ → TQ)
    (x : TQ) : TQ :=
  dropout (module x) + x

/-- Value-level model of `mlp` (model.py lines 20-26): LayerNorm, Linear,
GELU, Linear. -/
structure MlpM (TQ : Type) where
  norm : TQ → TQ
  linear1 : TQ → TQ
  gelu : TQ → TQ
  linear2 : TQ → TQ

/-- The `mlp` feed-forward pass: the four sub-modules applied in order
(the ordering is the `Sequential` wrapper, modelled from the spec). -/
def MlpM.forwardV {TQ : Type} (m : MlpM TQ) (x : TQ) : TQ :=
  m.linear2 (m.gelu (m.linear1 (m.norm x)))

/-- `cross_attention_layer` (model.py lines 29-33) at value level:
Residual(CrossAttention, dropout) then Residual(mlp, dropout), applied in
order (the ordering is the `Sequential` wrapper, modelled from the spec). -/
def crossAttentionLayerV {TQ TKV : Type} [Add TQ] (ca : CrossAttentionM TQ TKV)
    (m : MlpM TQ) (drop1 drop2 : TQ → TQ) (x_q : TQ) (x_kv : TKV) : TQ :=
  residualV drop2 m.forwardV (residualV drop1 (fun q => ca.forwardV q x_kv) x_q)

/-- C9: For every cross-attention layer and all query input `q` and key/value
input `kv`: the attention sub-result is computed from independently
normalized copies of the two streams; the first residual adds that
(dropout-regularized) result to the original, unnormalized query input `q`;
a feed-forward block LayerNorm → Linear → GELU → Linear with its own residual
follows; and at shape level the layer's output shape equals the query input's
shape. -/
theorem cross_attention_layer_structure {TQ TKV : Type} [Add TQ]
    (ca : CrossAttentionM TQ TKV) (m : MlpM TQ) (drop1 drop2 : TQ → TQ)
    (q : TQ) (kv : TKV) :
    (crossAttentionLayerV ca m drop1 drop2 q kv
      = drop2 (m.linear2 (m.gelu (m.linear1 (m.norm
            (drop1 (ca.attention (ca.q_norm q) (ca.kv_norm kv)) + q)))))
          + (drop1 (ca.attention (ca.q_norm q) (ca.kv_norm kv)) + q)) ∧
    (∀ (cq ckv : Nat) (qs kvs : Shape3),
      qs.2.2 = cq → kvs.2.2 = ckv → qs.1 = kvs.1 →
      crossAttentionLayerShape cq ckv qs kvs = .ok qs) := by
  refine ⟨rfl, ?_⟩
  intro cq ckv qs kvs hq hkv hb
  obtain ⟨b, n, c⟩ := qs
  obtain ⟨b2, m2, c2⟩ := kvs
  dsimp at hq hkv hb
  subst hq hkv hb
  exact crossAttentionLayerShape_fixed c c2 b n b m2 rfl

/-- Witness for C9 with concrete integer streams and concrete shapes. -/
theorem cross_attention_layer_structure_witness :
    (crossAttentionLayerV (⟨fun a => a + 1, fun b => b * 2, fun a b => a + b⟩ :
          CrossAttentionM Int Int)
        (⟨fun a => a * 3, fun a => a - 1, fun a => a + 4, fun a => a * 5⟩ : MlpM Int)
        (fun a => a) (fun a => a) 11 6
      = (fun a => a) ((⟨fun a => a * 3, fun a => a - 1, fun a => a + 4,
            fun a => a * 5⟩ : MlpM Int).linear2
          ((fun a => a + 4)
            ((fun a => a - 1)
              ((fun a => a * 3)
                ((fun a => a) ((11 + 1) + (6 * 2)) + 11)))))
          + ((fun a => a) ((11 + 1) + (6 * 2)) + 11)) ∧
    crossAttentionLayerShape 8 16 (2, 4, 8) (2, 32, 16) = .ok (2, 4, 8) := by
  have h := cross_attention_layer_structure
    (⟨fun a => a + 1, fun b => b * 2, fun a b => a + b⟩ : CrossAttentionM Int Int)
    (⟨fun a => a * 3, fun a => a - 1, fun a => a + 4, fun a => a * 5⟩ : MlpM Int)
    (fun a => a) (fun a => a) 11 6
  exact ⟨h.1, h.2 8 16 (2, 4, 8) (2, 32, 16) rfl rfl rfl⟩

end Perceiver
